import Mathlib

/-!
Verification of the Arducam EVK SDK frame-exchange contract.

The repository is a header-only API surface (C ABI plus a C++ wrapper); the
implementation lives in a closed-source binary. The definitions below are a
shallow embedding of the data model declared in `structs.h`/`values.h` and of
the operations declared in `arducam_evk_sdk.h`/`ArducamCamera.hpp`, with the
missing implementation modelled from the specification and the documentation
comments of those headers.
-/

/-- The memory type used for transfers, from `values.h` (`ArducamMemType`). -/
inductive ArducamMemType where
  | DMA
  | RAM
deriving DecidableEq, Repr

/-- Numeric value of each `ArducamMemType` constant as declared in `values.h`. -/
def ArducamMemType.toCode : ArducamMemType → Nat
  | .DMA => 1
  | .RAM => 2

/-- The error codes of the SDK, from `values.h` (`ArducamErrorCode`). -/
inductive ArducamErrorCode where
  | Success
  | Empty
  | InvalidArgument
  | NotSameDevice
  | ReadConfigFileFailed
  | ConfigFileEmpty
  | ConfigFormatError
  | ControlFormatError
  | OpenCameraFailed
  | UnknownUSBType
  | UnknownDeviceType
  | InitCameraFailed
  | MemoryAllocateFailed
  | USBTypeMismatch
  | CaptureTimeout
  | CaptureMethodConflict
  | FreeEmptyBuffer
  | FreeUnknowBuffer
  | RegisterMultipleCallback
  | StateError
  | NotSupported
  | VRCommandError
  | UserdataAddrError
  | UserdataLenError
  | UnknownError
deriving DecidableEq, Repr

/-- Numeric value of each `ArducamErrorCode` constant as declared in `values.h`. -/
def ArducamErrorCode.toCode : ArducamErrorCode → Nat
  | .Success => 0x00
  | .Empty => 0x10
  | .InvalidArgument => 0x11
  | .NotSameDevice => 0x12
  | .ReadConfigFileFailed => 0x0101
  | .ConfigFileEmpty => 0x0102
  | .ConfigFormatError => 0x0103
  | .ControlFormatError => 0x0104
  | .OpenCameraFailed => 0x0201
  | .UnknownUSBType => 0x0202
  | .UnknownDeviceType => 0x0203
  | .InitCameraFailed => 0x0301
  | .MemoryAllocateFailed => 0x0302
  | .USBTypeMismatch => 0x0401
  | .CaptureTimeout => 0x0601
  | .CaptureMethodConflict => 0x0602
  | .FreeEmptyBuffer => 0x0701
  | .FreeUnknowBuffer => 0x0702
  | .RegisterMultipleCallback => 0x0801
  | .StateError => 0x8001
  | .NotSupported => 0xF001
  | .VRCommandError => 0xFF03
  | .UserdataAddrError => 0xFF61
  | .UserdataLenError => 0xFF62
  | .UnknownError => 0xFFFF

/-- The event codes of the SDK, from `values.h` (`ArducamEventCode`). -/
inductive ArducamEventCode where
  | None
  | FrameStart
  | FrameEnd
  | Exit
  | SyncTime
  | TransferError
  | TransferTimeout
  | TransferLengthError
  | DeviceConnect
  | UnknownDeviceConnect
  | DeviceDisconnect
deriving DecidableEq, Repr

/-- Numeric value of each `ArducamEventCode` constant as declared in `values.h`. -/
def ArducamEventCode.toCode : ArducamEventCode → Nat
  | .None => 0x00
  | .FrameStart => 0x01
  | .FrameEnd => 0x02
  | .Exit => 0x03
  | .SyncTime => 0x04
  | .TransferError => 0x0100
  | .TransferTimeout => 0x0101
  | .TransferLengthError => 0x0102
  | .DeviceConnect => 0x0200
  | .UnknownDeviceConnect => 0x0201
  | .DeviceDisconnect => 0x0202

/-- The format of a frame, from `structs.h` (`ArducamFrameFormat`). -/
structure ArducamFrameFormat where
  width : Nat
  height : Nat
  bit_width : Nat
  format : Nat
deriving DecidableEq, Repr

instance : Inhabited ArducamFrameFormat := ⟨⟨0, 0, 0, 0⟩⟩

/-- A frame buffer descriptor, from `structs.h` (`ArducamImageFrame`).
The `data` pointer is modelled as a `Nat` address, where `0` is the null
pointer. -/
structure ArducamImageFrame where
  seq : Nat
  timestamp : Nat
  alloc_size : Nat
  expected_size : Nat
  size : Nat
  data : Nat
  format : ArducamFrameFormat
deriving DecidableEq, Repr

/-- The parameters used to open a camera, from `structs.h`
(`ArducamCameraOpenParam`). The nullable `const char *` file names are
modelled as `Option String` and the nullable device handle as `Option Nat`. -/
structure ArducamCameraOpenParam where
  config_file_name : Option String
  ext_config_file_name : Option String
  bin_config : Bool
  mem_type : ArducamMemType
  device : Option Nat
deriving DecidableEq, Repr

/-- The lifecycle states of a camera handle. Modelled from the spec:
`Closed -> Opened -> Initialized -> Started / Stopped -> Closed`. -/
inductive CameraLifecycle where
  | closed
  | opened
  | initialized
  | started
  | stopped
deriving DecidableEq, Repr

/-- Modelled from the spec: the state behind an `ArducamCameraHandle`,
whose implementation (`ArducamCamera`) is not part of the repository.
It carries the capture queue pair (`inputQueue` of empty buffers awaiting
producer reuse, `outputQueue` of filled frames awaiting consumption), the
frames currently checked out to callers (`outstanding`), the configured
buffer pool size and expected frame size, the transfer configuration, the
registered capture callback (as an identifier), the `do_exit` stop flag and
the events delivered through the event callback. -/
structure CameraState where
  lifecycle : CameraLifecycle
  inputQueue : List ArducamImageFrame
  outputQueue : List ArducamImageFrame
  outstanding : List ArducamImageFrame
  poolSize : Nat
  expectedSize : Nat
  nextSeq : Nat
  captureCallback : Option Nat
  transferCount : Int
  bufferSize : Int
  autoTransfer : Bool
  memType : ArducamMemType
  forceCapture : Bool
  doExit : Bool
  deliveredEvents : List ArducamEventCode
deriving DecidableEq, Repr

/-- Modelled from the spec: `ArducamFreeImage` (declared in
`arducam_evk_sdk.h`, implementation not in the repository) returns a frame
to the input queue. Per the header documentation: it fails with
`FreeEmptyBuffer` if the frame's `data` pointer is null; a frame whose
buffer is not one checked out to the caller, or whose `size` does not match
the camera's configured expected size, is dropped (not queued) and reported
as `FreeUnknowBuffer`; otherwise the buffer moves from the caller back to
the input queue. -/
def ArducamFreeImage (s : CameraState) (frame : ArducamImageFrame) :
    ArducamErrorCode × CameraState :=
  if frame.data = 0 then
    (.FreeEmptyBuffer, s)
  else if frame ∉ s.outstanding then
    (.FreeUnknowBuffer, s)
  else if frame.size ≠ s.expectedSize then
    (.FreeUnknowBuffer, { s with outstanding := s.outstanding.erase frame })
  else
    (.Success, { s with outstanding := s.outstanding.erase frame,
                        inputQueue := s.inputQueue ++ [frame] })

/-- Modelled from the spec: `ArducamCaptureImage` (declared in
`arducam_evk_sdk.h`, implementation not in the repository) dequeues the
oldest frame of the output queue, transferring ownership to the caller; if
no frame is available it fails with `CaptureTimeout` (the model is
time-free: no frame arrives during the call). -/
def ArducamCaptureImage (s : CameraState) (_timeout : Int) :
    ArducamErrorCode × Option ArducamImageFrame × CameraState :=
  match s.outputQueue with
  | [] => (.CaptureTimeout, none, s)
  | f :: rest =>
    (.Success, some f, { s with outputQueue := rest, outstanding := f :: s.outstanding })

/-- Modelled from the spec: `ArducamWaitCaptureImage` (declared in
`arducam_evk_sdk.h`, implementation not in the repository) waits for a frame
to be available in the output queue, without dequeuing it. The result is
`some code` when the call returns immediately and `none` when it blocks:
with a frame available it returns availability at once; after `stop` it is
force-unblocked; with `timeout = 0` and no frame it reports `CaptureTimeout`
without blocking; otherwise (no frame, camera running, nonzero timeout) it
blocks waiting for the producer. The state is returned unchanged: the call
is a peek, never a dequeue. -/
def ArducamWaitCaptureImage (s : CameraState) (timeout : Int) :
    Option ArducamErrorCode × CameraState :=
  if s.outputQueue ≠ [] then (some .Success, s)
  else if s.doExit then (some .CaptureTimeout, s)
  else if timeout = 0 then (some .CaptureTimeout, s)
  else (none, s)

/-- Modelled from the spec: `ArducamAvailableImageCount` (declared in
`arducam_evk_sdk.h`) returns the number of frames currently in the output
queue. -/
def ArducamAvailableImageCount (s : CameraState) : ArducamErrorCode × Nat :=
  (.Success, s.outputQueue.length)

/-- Modelled from the spec: `ArducamDefaultParam` (declared in
`arducam_evk_sdk.h`, implementation not in the repository) sets the default
values for an `ArducamCameraOpenParam` struct, regardless of its prior
contents. Per the header documentation the defaults are:
`config_file_name = null`, `ext_config_file_name = null`,
`bin_config = false`, `mem_type = DMA`, `device = null`. -/
def ArducamDefaultParam (_param : ArducamCameraOpenParam) : ArducamCameraOpenParam :=
  { config_file_name := none
    ext_config_file_name := none
    bin_config := false
    mem_type := .DMA
    device := none }

/-- Modelled from the spec: the buffers created by `init` for the io queues,
`n` buffers of allocated size `sz`, each with a distinct non-null data
pointer. -/
def mkBuffers (n sz : Nat) : List ArducamImageFrame :=
  (List.range n).map fun i =>
    { seq := 0, timestamp := 0, alloc_size := sz, expected_size := sz,
      size := sz, data := i + 1, format := default }

/-- Modelled from the spec: `ArducamOpenCamera` (declared in
`arducam_evk_sdk.h`, implementation not in the repository) opens a camera
with the given parameters, creating the handle state. The configured buffer
pool size and derived expected frame size are opaque to the headers and are
taken as parameters of the model. -/
def ArducamOpenCamera (param : ArducamCameraOpenParam) (poolSize expectedSize : Nat) :
    ArducamErrorCode × CameraState :=
  (.Success,
    { lifecycle := .opened
      inputQueue := []
      outputQueue := []
      outstanding := []
      poolSize := poolSize
      expectedSize := expectedSize
      nextSeq := 0
      captureCallback := none
      transferCount := 0
      bufferSize := 0
      autoTransfer := true
      memType := param.mem_type
      forceCapture := false
      doExit := false
      deliveredEvents := [] })

/-- Modelled from the spec: `ArducamInitCamera` (declared in
`arducam_evk_sdk.h`, implementation not in the repository) initializes the
camera, creating the io buffers; it requires an opened camera. -/
def ArducamInitCamera (s : CameraState) : ArducamErrorCode × CameraState :=
  if s.lifecycle = .opened then
    (.Success, { s with lifecycle := .initialized
                        inputQueue := mkBuffers s.poolSize s.expectedSize
                        outputQueue := []
                        outstanding := []
                        nextSeq := 0 })
  else (.StateError, s)

/-- Modelled from the spec: `ArducamStartCamera` (declared in
`arducam_evk_sdk.h`, implementation not in the repository) starts the
capture threads; valid from the `Initialized` or `Stopped` state. -/
def ArducamStartCamera (s : CameraState) : ArducamErrorCode × CameraState :=
  if s.lifecycle = .initialized ∨ s.lifecycle = .stopped then
    (.Success, { s with lifecycle := .started, doExit := false })
  else (.StateError, s)

/-- Modelled from the spec: `ArducamStopCamera` (declared in
`arducam_evk_sdk.h`, implementation not in the repository) sets the
`do_exit` flag, force-unblocking any pending wait, and joins the worker
threads. -/
def ArducamStopCamera (s : CameraState) : ArducamErrorCode × CameraState :=
  if s.lifecycle = .started then
    (.Success, { s with lifecycle := .stopped, doExit := true })
  else (.StateError, s)

/-- Modelled from the spec: the resource release performed by `close`
(releases all buffers; the handle is deleted, modelled by the `closed`
lifecycle state). -/
def releaseResources (s : CameraState) : CameraState :=
  { s with lifecycle := .closed
           inputQueue := []
           outputQueue := []
           outstanding := []
           captureCallback := none }

/-- Modelled from the spec: `ArducamCloseCamera` (declared in
`arducam_evk_sdk.h`, implementation not in the repository). Per the header
documentation it first stops the camera if it is running, then releases all
buffers and deletes the handle. -/
def ArducamCloseCamera (s : CameraState) : ArducamErrorCode × CameraState :=
  if s.lifecycle = .started then
    (.Success, releaseResources (ArducamStopCamera s).2)
  else (.Success, releaseResources s)

/-- A camera handle is valid while it has not been closed; `close`
invalidates it. -/
def handleValid (s : CameraState) : Bool :=
  s.lifecycle ≠ .closed

/-- Modelled from the spec: `ArducamRegisterCaptureCallback` (declared in
`arducam_evk_sdk.h`, implementation not in the repository) registers a
capture callback, identified by `cb`; exactly one callback may be
registered at a time, so a second registration fails with
`RegisterMultipleCallback` and leaves the registered callback in place. -/
def ArducamRegisterCaptureCallback (s : CameraState) (cb : Nat) :
    ArducamErrorCode × CameraState :=
  match s.captureCallback with
  | some _ => (.RegisterMultipleCallback, s)
  | none => (.Success, { s with captureCallback := some cb })

/-- Modelled from the spec: `ArducamClearCaptureCallback` (declared in
`arducam_evk_sdk.h`, implementation not in the repository) clears the
registered capture callback. -/
def ArducamClearCaptureCallback (s : CameraState) : ArducamErrorCode × CameraState :=
  (.Success, { s with captureCallback := none })

/-- Modelled from the spec: `ArducamSetTransferConfig` (declared in
`arducam_evk_sdk.h`, implementation not in the repository) sets the
transfer count and buffer size and sets auto transfer to false; per the
header documentation it can only be called before `start` or after `stop`,
so it fails while the camera is `Started`. -/
def ArducamSetTransferConfig (s : CameraState) (transfer_count buffer_size : Int) :
    ArducamErrorCode × CameraState :=
  if s.lifecycle = .started then (.StateError, s)
  else (.Success, { s with transferCount := transfer_count,
                           bufferSize := buffer_size,
                           autoTransfer := false })

/-- Modelled from the spec: `ArducamSetAutoTransferConfig` (declared in
`arducam_evk_sdk.h`, implementation not in the repository) enables or
disables automatic transfer configuration; it fails while the camera is
`Started`. -/
def ArducamSetAutoTransferConfig (s : CameraState) (auto_transfer : Bool) :
    ArducamErrorCode × CameraState :=
  if s.lifecycle = .started then (.StateError, s)
  else (.Success, { s with autoTransfer := auto_transfer })

/-- Modelled from the spec: `ArducamSetMemType` (declared in
`arducam_evk_sdk.h`, implementation not in the repository) sets the
transfer memory type; it fails while the camera is `Started`. -/
def ArducamSetMemType (s : CameraState) (mem_type : ArducamMemType) :
    ArducamErrorCode × CameraState :=
  if s.lifecycle = .started then (.StateError, s)
  else (.Success, { s with memType := mem_type })

/-- Modelled from the spec: the background producer takes an empty buffer
from the input queue, fills it with the next frame (assigning the next
monotonic sequence number and the configured frame size) and posts it at
the back of the output queue. -/
def producerFill (s : CameraState) : CameraState :=
  match s.inputQueue with
  | [] => s
  | b :: rest =>
    { s with inputQueue := rest
             outputQueue := s.outputQueue ++
               [{ b with seq := s.nextSeq, size := s.expectedSize,
                         expected_size := s.expectedSize }]
             nextSeq := s.nextSeq + 1 }

/-- Modelled from the spec: an asynchronous device-level fault is delivered
through the event callback, recorded in `deliveredEvents`; it is never a
synchronous return value of a capture or free call. -/
def deviceFaultEvent (s : CameraState) (e : ArducamEventCode) : CameraState :=
  { s with deliveredEvents := s.deliveredEvents ++ [e] }

/-- The operations a trace of the frame-exchange protocol may interleave:
producer frame completion, consumer capture and free, waits, stop, and
asynchronous device faults. -/
inductive CamOp where
  | fill
  | capture (timeout : Int)
  | free (frame : ArducamImageFrame)
  | wait (timeout : Int)
  | stop
  | fault (e : ArducamEventCode)
deriving DecidableEq, Repr

/-- One step of the frame-exchange protocol: the new camera state together
with the frame delivered to the caller, if the step was a successful
capture. -/
def camStep (op : CamOp) (s : CameraState) : CameraState × Option ArducamImageFrame :=
  match op with
  | .fill => (producerFill s, none)
  | .capture t =>
    let r := ArducamCaptureImage s t
    (r.2.2, r.2.1)
  | .free f => ((ArducamFreeImage s f).2, none)
  | .wait t => ((ArducamWaitCaptureImage s t).2, none)
  | .stop => ((ArducamStopCamera s).2, none)
  | .fault e => (deviceFaultEvent s e, none)

/-- Runs a trace of operations, returning the final camera state and the
list of frames delivered to callers by successful captures, in delivery
order. -/
def runOps : List CamOp → CameraState → CameraState × List ArducamImageFrame
  | [], s => (s, [])
  | op :: ops, s =>
    let r := camStep op s
    let rest := runOps ops r.1
    (rest.1, r.2.toList ++ rest.2)

/-- The C++ exceptions the wrapper documents; `DeviceList::at` in
`ArducamCamera.hpp` documents `std::out_of_range` for an out-of-range
index. -/
inductive CppException where
  | outOfRange
deriving DecidableEq, Repr

/-- A list of Arducam devices, from `ArducamCamera.hpp` (`DeviceList`);
device handles are modelled as `Nat` addresses. -/
structure DeviceList where
  devices : List Nat
deriving DecidableEq, Repr

/-- `DeviceList::at` from `ArducamCamera.hpp`: returns the device handle at
the given index, and per its documentation throws `std::out_of_range` if
the index is out of range. (`at` is reserved in Lean, hence the name.) -/
def DeviceList.atIdx (l : DeviceList) (index : Nat) : Except CppException Nat :=
  if h : index < l.devices.length then .ok (l.devices.get ⟨index, h⟩)
  else .error .outOfRange

/-- The synchronous operations of the modelled API surface. -/
inductive SyncOp where
  | captureImage
  | freeImage
  | waitCaptureImage
  | availableImageCount
  | registerCaptureCallback
  | clearCaptureCallback
  | setTransferConfig
  | setAutoTransferConfig
  | setMemType
  | startCamera
  | stopCamera
  | closeCamera
  | defaultParam
  | deviceListAt
deriving DecidableEq, Repr

/-- A common input bundle for running any synchronous operation of the
model. -/
structure OpInput where
  s : CameraState
  frame : ArducamImageFrame
  timeout : Int
  cb : Nat
  transfer_count : Int
  buffer_size : Int
  auto_transfer : Bool
  mem_type : ArducamMemType
  param : ArducamCameraOpenParam
  dl : DeviceList
  index : Nat
deriving DecidableEq, Repr

/-- Runs a synchronous operation of the modelled API on an input bundle,
as the caller observes it: either a normal return (an error code reported
through the return value) or a thrown C++ exception. Every C-ABI operation
returns a code; only the C++ wrapper's `DeviceList::at` can throw. -/
def runSyncOp : SyncOp → OpInput → Except CppException ArducamErrorCode
  | .captureImage, i => .ok (ArducamCaptureImage i.s i.timeout).1
  | .freeImage, i => .ok (ArducamFreeImage i.s i.frame).1
  | .waitCaptureImage, i =>
    .ok (match (ArducamWaitCaptureImage i.s i.timeout).1 with
         | some c => c
         | none => .CaptureTimeout)
  | .availableImageCount, i => .ok (ArducamAvailableImageCount i.s).1
  | .registerCaptureCallback, i => .ok (ArducamRegisterCaptureCallback i.s i.cb).1
  | .clearCaptureCallback, i => .ok (ArducamClearCaptureCallback i.s).1
  | .setTransferConfig, i => .ok (ArducamSetTransferConfig i.s i.transfer_count i.buffer_size).1
  | .setAutoTransferConfig, i => .ok (ArducamSetAutoTransferConfig i.s i.auto_transfer).1
  | .setMemType, i => .ok (ArducamSetMemType i.s i.mem_type).1
  | .startCamera, i => .ok (ArducamStartCamera i.s).1
  | .stopCamera, i => .ok (ArducamStopCamera i.s).1
  | .closeCamera, i => .ok (ArducamCloseCamera i.s).1
  | .defaultParam, i =>
    .ok (match ArducamDefaultParam i.param with | _ => .Success)
  | .deviceListAt, i => (i.dl.atIdx i.index).map fun _ => .Success

/-- An open parameter with every field away from its default, to exercise
`ArducamDefaultParam`. -/
def exampleParam : ArducamCameraOpenParam :=
  { config_file_name := none
    ext_config_file_name := none
    bin_config := true
    mem_type := .RAM
    device := some 7 }

/-- A valid captured frame descriptor with a non-null data pointer. -/
def exampleFrame : ArducamImageFrame :=
  { seq := 0, timestamp := 0, alloc_size := 64, expected_size := 64,
    size := 64, data := 5, format := default }

/-- A frame whose data pointer is null. -/
def nullFrame : ArducamImageFrame :=
  { exampleFrame with data := 0 }

/-- A frame whose size disagrees with the configured expected size of the
scenario camera (whose expected size is 64). -/
def badSizeFrame : ArducamImageFrame :=
  { exampleFrame with size := 1 }

/-- Scenario: a camera opened with default parameters, a pool of 4 buffers
of 64 bytes. -/
def scOpen : CameraState :=
  (ArducamOpenCamera (ArducamDefaultParam exampleParam) 4 64).2

/-- Scenario: the camera after `init` (io buffers created). -/
def scInit : CameraState := (ArducamInitCamera scOpen).2

/-- Scenario: the camera after `start`. -/
def scStart : CameraState := (ArducamStartCamera scInit).2

/-- Scenario: the started camera after the producer completed three
frames. -/
def scThree : CameraState := producerFill (producerFill (producerFill scStart))

/-- Scenario: the first capture call on `scThree`. -/
def scCap1 : ArducamErrorCode × Option ArducamImageFrame × CameraState :=
  ArducamCaptureImage scThree 1500

/-- Scenario: the camera after the first capture. -/
def scAfter1 : CameraState := scCap1.2.2

/-- Scenario: the second capture call. -/
def scCap2 : ArducamErrorCode × Option ArducamImageFrame × CameraState :=
  ArducamCaptureImage scAfter1 1500

/-- Scenario: the camera after the second capture. -/
def scAfter2 : CameraState := scCap2.2.2

/-- Scenario: the third capture call. -/
def scCap3 : ArducamErrorCode × Option ArducamImageFrame × CameraState :=
  ArducamCaptureImage scAfter2 1500

/-- Scenario: the camera after the third capture, its output queue
drained. -/
def scDrained : CameraState := scCap3.2.2

/-- Scenario: a started camera with a capture callback registered. -/
def scWithCallback : CameraState := (ArducamRegisterCaptureCallback scStart 7).2

/-- The number of frame buffers accounted for in a camera state: buffers
awaiting reuse, filled frames awaiting consumption, and frames checked out
to callers. -/
def bufferCount (s : CameraState) : Nat :=
  s.inputQueue.length + s.outputQueue.length + s.outstanding.length

/-- Well-formedness of the output queue: frame sequence numbers strictly
ascend along the queue and stay below the producer's next sequence
number. -/
def QueueWF (s : CameraState) : Prop :=
  s.outputQueue.Pairwise (fun a b => a.seq < b.seq)
  ∧ ∀ f ∈ s.outputQueue, f.seq < s.nextSeq

/-- `n` is a lower bound for every frame still to be delivered: every frame
of the output queue, and every future producer-assigned sequence number, is
at least `n`. -/
def SeqLB (n : Nat) (s : CameraState) : Prop :=
  (∀ f ∈ s.outputQueue, n ≤ f.seq) ∧ n ≤ s.nextSeq

/-- The input bundle used to exhibit the throwing synchronous operation:
an empty device list indexed at 0. -/
def exampleInput : OpInput :=
  { s := scStart
    frame := exampleFrame
    timeout := 0
    cb := 0
    transfer_count := 0
    buffer_size := 0
    auto_transfer := false
    mem_type := .DMA
    param := exampleParam
    dl := { devices := [] }
    index := 0 }

instance (s : CameraState) : Decidable (QueueWF s) := by
  unfold QueueWF; infer_instance

instance (n : Nat) (s : CameraState) : Decidable (SeqLB n s) := by
  unfold SeqLB; infer_instance

/-- `waitCapture` returns the camera state unchanged in every branch. -/
theorem waitCapture_snd (s : CameraState) (t : Int) :
    (ArducamWaitCaptureImage s t).2 = s := by
  unfold ArducamWaitCaptureImage
  split_ifs <;> rfl

/-- `stop` leaves the queues, the outstanding frames, the pool size and the
producer sequence counter untouched. -/
theorem stopCamera_fields (s : CameraState) :
    (ArducamStopCamera s).2.inputQueue = s.inputQueue
    ∧ (ArducamStopCamera s).2.outputQueue = s.outputQueue
    ∧ (ArducamStopCamera s).2.outstanding = s.outstanding
    ∧ (ArducamStopCamera s).2.poolSize = s.poolSize
    ∧ (ArducamStopCamera s).2.nextSeq = s.nextSeq := by
  unfold ArducamStopCamera
  split_ifs <;> exact ⟨rfl, rfl, rfl, rfl, rfl⟩

/-- No step of the protocol increases the number of buffers accounted for:
buffers only move between the queues and the callers, or leak when a
mismatched buffer is dropped. -/
theorem camStep_bufferCount (op : CamOp) (s : CameraState) :
    bufferCount (camStep op s).1 ≤ bufferCount s := by
  cases op with
  | fill =>
    simp only [camStep]
    unfold producerFill
    cases h : s.inputQueue <;> simp [bufferCount, h] <;> omega
  | capture t =>
    simp only [camStep]
    unfold ArducamCaptureImage
    cases h : s.outputQueue <;> simp [bufferCount, h] <;> omega
  | free f =>
    simp only [camStep]
    by_cases h1 : f.data = 0
    · simp [ArducamFreeImage, h1, bufferCount]
    · by_cases h2 : f ∈ s.outstanding
      · have hl := List.length_erase_of_mem h2
        have hpos : 0 < s.outstanding.length := List.length_pos_of_mem h2
        by_cases h3 : f.size = s.expectedSize
        · simp [ArducamFreeImage, h1, h2, h3, bufferCount, hl] <;> omega
        · simp [ArducamFreeImage, h1, h2, h3, bufferCount, hl] <;> omega
      · simp [ArducamFreeImage, h1, h2, bufferCount]
  | wait t =>
    simp only [camStep, waitCapture_snd]
    exact le_refl _
  | stop =>
    simp only [camStep]
    have h := stopCamera_fields s
    simp [bufferCount, h.1, h.2.1, h.2.2.1]
  | fault e =>
    simp only [camStep]
    simp [bufferCount, deviceFaultEvent]

/-- No step of the protocol changes the configured pool size. -/
theorem camStep_poolSize (op : CamOp) (s : CameraState) :
    (camStep op s).1.poolSize = s.poolSize := by
  cases op with
  | fill =>
    simp only [camStep]
    unfold producerFill
    cases h : s.inputQueue <;> simp [h]
  | capture t =>
    simp only [camStep]
    unfold ArducamCaptureImage
    cases h : s.outputQueue <;> simp [h]
  | free f =>
    simp only [camStep]
    by_cases h1 : f.data = 0
    · simp [ArducamFreeImage, h1]
    · by_cases h2 : f ∈ s.outstanding
      · by_cases h3 : f.size = s.expectedSize
        · simp [ArducamFreeImage, h1, h2, h3]
        · simp [ArducamFreeImage, h1, h2, h3]
      · simp [ArducamFreeImage, h1, h2]
  | wait t =>
    simp only [camStep, waitCapture_snd]
  | stop =>
    simp only [camStep]
    exact (stopCamera_fields s).2.2.2.1
  | fault e =>
    rfl

/-- Along any trace, the buffer accounting never grows and the configured
pool size is preserved. -/
theorem runOps_bufferCount (ops : List CamOp) (s : CameraState) :
    bufferCount (runOps ops s).1 ≤ bufferCount s
    ∧ (runOps ops s).1.poolSize = s.poolSize := by
  induction ops generalizing s with
  | nil => simp [runOps]
  | cons op ops ih =>
    have h1 := camStep_bufferCount op s
    have h2 := camStep_poolSize op s
    have h3 := ih (camStep op s).1
    simp only [runOps]
    exact ⟨le_trans h3.1 h1, h3.2.trans h2⟩

/-- The producer preserves queue well-formedness and any sequence lower
bound: the frame it appends receives the next fresh sequence number. -/
theorem producerFill_wf (s : CameraState) (n : Nat)
    (hwf : QueueWF s) (hlb : SeqLB n s) :
    QueueWF (producerFill s) ∧ SeqLB n (producerFill s) := by
  obtain ⟨hp, hb⟩ := hwf
  obtain ⟨hl, hn⟩ := hlb
  unfold producerFill
  cases h : s.inputQueue with
  | nil => exact ⟨⟨hp, hb⟩, hl, hn⟩
  | cons b rest =>
    refine ⟨⟨?_, ?_⟩, ?_, ?_⟩
    · simp only [List.pairwise_append]
      refine ⟨hp, List.pairwise_singleton _ _, ?_⟩
      intro a ha b hb2
      simp at hb2
      subst hb2
      simpa using hb a ha
    · intro f hf
      simp only [List.mem_append, List.mem_singleton] at hf
      rcases hf with hf | hf
      · exact Nat.lt_succ_of_lt (hb f hf)
      · subst hf
        simp [Nat.lt_succ_self]
    · intro f hf
      simp only [List.mem_append, List.mem_singleton] at hf
      rcases hf with hf | hf
      · exact hl f hf
      · subst hf
        simpa using hn
    · exact Nat.le_succ_of_le hn

/-- `freeImage` never touches the output queue or the producer sequence
counter. -/
theorem freeImage_queue_fields (s : CameraState) (f : ArducamImageFrame) :
    (ArducamFreeImage s f).2.outputQueue = s.outputQueue
    ∧ (ArducamFreeImage s f).2.nextSeq = s.nextSeq := by
  unfold ArducamFreeImage
  by_cases h1 : f.data = 0
  · simp [h1]
  · by_cases h2 : f ∈ s.outstanding
    · by_cases h3 : f.size = s.expectedSize
      · simp [h1, h2, h3]
      · simp [h1, h2, h3]
    · simp [h1, h2]

/-- Every step of the protocol preserves queue well-formedness and any
sequence lower bound. -/
theorem camStep_wf (op : CamOp) (s : CameraState) (n : Nat)
    (hwf : QueueWF s) (hlb : SeqLB n s) :
    QueueWF (camStep op s).1 ∧ SeqLB n (camStep op s).1 := by
  cases op with
  | fill =>
    simp only [camStep]
    exact producerFill_wf s n hwf hlb
  | capture t =>
    simp only [camStep]
    unfold ArducamCaptureImage
    cases h : s.outputQueue with
    | nil => exact ⟨hwf, hlb⟩
    | cons f rest =>
      obtain ⟨hp, hb⟩ := hwf
      obtain ⟨hl, hn⟩ := hlb
      rw [h] at hp hb
      refine ⟨⟨?_, ?_⟩, ?_, ?_⟩
      · exact (List.pairwise_cons.mp hp).2
      · intro g hg
        exact hb g (List.mem_cons_of_mem _ hg)
      · intro g hg
        exact hl g (h ▸ List.mem_cons_of_mem _ hg)
      · exact hn
  | free f =>
    have hq := freeImage_queue_fields s f
    constructor
    · exact ⟨hq.1 ▸ hwf.1, fun g hg => hq.2 ▸ hwf.2 g (hq.1 ▸ hg)⟩
    · exact ⟨fun g hg => hlb.1 g (hq.1 ▸ hg), hq.2 ▸ hlb.2⟩
  | wait t =>
    simp only [camStep, waitCapture_snd]
    exact ⟨hwf, hlb⟩
  | stop =>
    have hq := stopCamera_fields s
    constructor
    · exact ⟨hq.2.1 ▸ hwf.1, fun g hg => hq.2.2.2.2 ▸ hwf.2 g (hq.2.1 ▸ hg)⟩
    · exact ⟨fun g hg => hlb.1 g (hq.2.1 ▸ hg), hq.2.2.2.2 ▸ hlb.2⟩
  | fault e =>
    exact ⟨hwf, hlb⟩

/-- A successful capture step delivers a frame whose sequence number
respects the current lower bound, and afterwards every frame still queued
or yet to be produced has a strictly larger sequence number. -/
theorem camStep_capture_some (t : Int) (s : CameraState) (n : Nat)
    (hwf : QueueWF s) (hlb : SeqLB n s) (f : ArducamImageFrame)
    (hf : (camStep (.capture t) s).2 = some f) :
    n ≤ f.seq
    ∧ QueueWF (camStep (.capture t) s).1
    ∧ SeqLB (f.seq + 1) (camStep (.capture t) s).1 := by
  simp only [camStep] at hf ⊢
  unfold ArducamCaptureImage at hf ⊢
  cases h : s.outputQueue with
  | nil => rw [h] at hf; simp at hf
  | cons g rest =>
    rw [h] at hf
    simp at hf
    subst hf
    obtain ⟨hp, hb⟩ := hwf
    obtain ⟨hl, hn⟩ := hlb
    rw [h] at hp hb
    have hgmem : g ∈ s.outputQueue := h ▸ List.mem_cons_self _ _
    refine ⟨hl g hgmem, ⟨?_, ?_⟩, ?_, ?_⟩
    · exact (List.pairwise_cons.mp hp).2
    · intro x hx
      exact hb x (List.mem_cons_of_mem _ hx)
    · intro x hx
      exact Nat.succ_le_of_lt ((List.pairwise_cons.mp hp).1 x hx)
    · exact Nat.succ_le_of_lt (hb g (List.mem_cons_self _ _))

/-- Along any trace from a well-formed state, the frames delivered by
captures have sequence numbers bounded below by the state's lower bound
and strictly ascending in delivery order. -/
theorem runOps_captured_seq (ops : List CamOp) (s : CameraState) (n : Nat)
    (hwf : QueueWF s) (hlb : SeqLB n s) :
    (∀ f ∈ (runOps ops s).2, n ≤ f.seq)
    ∧ (runOps ops s).2.Pairwise (fun a b => a.seq < b.seq) := by
  induction ops generalizing s n with
  | nil => simp [runOps]
  | cons op ops ih =>
    simp only [runOps]
    cases hcap : (camStep op s).2 with
    | none =>
      simp only [hcap, Option.toList_none, List.nil_append]
      have hpres := camStep_wf op s n hwf hlb
      exact ih (camStep op s).1 n hpres.1 hpres.2
    | some f =>
      have hop : ∃ t, op = CamOp.capture t := by
        cases op with
        | capture t => exact ⟨t, rfl⟩
        | fill => simp [camStep] at hcap
        | free g => simp [camStep] at hcap
        | wait t => simp [camStep] at hcap
        | stop => simp [camStep] at hcap
        | fault e => simp [camStep] at hcap
      obtain ⟨t, rfl⟩ := hop
      have hc := camStep_capture_some t s n hwf hlb f hcap
      have hrest := ih (camStep (.capture t) s).1 (f.seq + 1) hc.2.1 hc.2.2
      simp only [hcap, Option.toList_some, List.singleton_append]
      constructor
      · intro g hg
        rcases List.mem_cons.mp hg with hg | hg
        · exact hg ▸ hc.1
        · exact le_trans (le_trans hc.1 (Nat.le_succ _)) (hrest.1 g hg)
      · refine List.pairwise_cons.mpr ⟨?_, hrest.2⟩
        intro g hg
        exact Nat.lt_of_succ_le (hrest.1 g hg)

/-- C1: For every sequence of capture and free operations on a started
camera (interleaved with producer completions, waits, stop and device
faults), the number of frame buffers outstanding with callers never
exceeds the configured buffer pool size; the frames delivered by
successful captures have strictly ascending sequence numbers, so no frame
is ever delivered twice; and every frame returned by a successful capture
call was at the head of the output queue immediately before that call and
is removed from it by exactly that one call. -/
theorem capture_free_buffer_protocol (ops : List CamOp) (s0 : CameraState)
    (hwf : QueueWF s0) (hcnt : bufferCount s0 ≤ s0.poolSize) :
    (runOps ops s0).1.outstanding.length ≤ s0.poolSize
    ∧ (runOps ops s0).2.Pairwise (fun a b => a.seq < b.seq)
    ∧ (runOps ops s0).2.Pairwise (fun a b => a ≠ b)
    ∧ (∀ s t er f s2, ArducamCaptureImage s t = (er, some f, s2) →
        er = .Success ∧ f ∈ s.outputQueue ∧ s.outputQueue = f :: s2.outputQueue) := by
  have hasc := runOps_captured_seq ops s0 0 hwf
    ⟨fun f _ => Nat.zero_le _, Nat.zero_le _⟩
  have hbc := runOps_bufferCount ops s0
  refine ⟨?_, hasc.2, ?_, ?_⟩
  · have h1 : (runOps ops s0).1.outstanding.length ≤ bufferCount (runOps ops s0).1 := by
      unfold bufferCount; omega
    omega
  · exact hasc.2.imp fun hab heq => absurd (heq ▸ hab) (lt_irrefl _)
  · intro s t er f s2 hcap
    unfold ArducamCaptureImage at hcap
    cases h : s.outputQueue with
    | nil =>
      rw [h] at hcap
      simp at hcap
    | cons g rest =>
      rw [h] at hcap
      simp only [Prod.mk.injEq] at hcap
      obtain ⟨her, hfg, hs2⟩ := hcap
      obtain rfl : g = f := by simpa using hfg
      refine ⟨her.symm, List.mem_cons_self _ _, ?_⟩
      rw [← hs2]

/-- C1 witness: the protocol invariant instantiated on the started
scenario camera with a one-fill one-capture trace. -/
theorem capture_free_buffer_protocol_witness :
    (runOps [CamOp.fill, CamOp.capture 0] scStart).1.outstanding.length ≤ scStart.poolSize :=
  (capture_free_buffer_protocol [CamOp.fill, CamOp.capture 0] scStart
    (by decide) (by decide)).1

/-- C2: freeing a frame whose data pointer is null fails with
`FreeEmptyBuffer` and leaves the camera state, in particular its input
queue, unchanged. -/
theorem freeImage_null_data_rejected (s : CameraState) (f : ArducamImageFrame)
    (h : f.data = 0) :
    ArducamFreeImage s f = (.FreeEmptyBuffer, s)
    ∧ (ArducamFreeImage s f).2.inputQueue = s.inputQueue := by
  constructor <;> simp [ArducamFreeImage, h]

/-- C2 witness: freeing the null-data frame on the started scenario
camera. -/
theorem freeImage_null_data_rejected_witness :
    ArducamFreeImage scStart nullFrame = (.FreeEmptyBuffer, scStart) :=
  (freeImage_null_data_rejected scStart nullFrame (by decide)).1

/-- C3: freeing a frame with non-null data whose size disagrees with the
camera's configured expected size reports `FreeUnknowBuffer` (never
success) and does not add the frame to the input queue, which is left
unchanged. -/
theorem freeImage_size_mismatch_dropped (s : CameraState) (f : ArducamImageFrame)
    (hd : f.data ≠ 0) (hs : f.size ≠ s.expectedSize) :
    (ArducamFreeImage s f).1 = .FreeUnknowBuffer
    ∧ (ArducamFreeImage s f).1 ≠ .Success
    ∧ (ArducamFreeImage s f).2.inputQueue = s.inputQueue := by
  by_cases hm : f ∈ s.outstanding <;>
    simp [ArducamFreeImage, hd, hs, hm]

/-- C3 witness: freeing a wrong-sized frame on the started scenario
camera, whose expected size is 64. -/
theorem freeImage_size_mismatch_dropped_witness :
    (ArducamFreeImage scStart badSizeFrame).1 = .FreeUnknowBuffer :=
  (freeImage_size_mismatch_dropped scStart badSizeFrame (by decide) (by decide)).1

/-- C4: `waitCapture` with timeout 0 on an empty output queue returns the
not-available result immediately; with a negative timeout on a running
camera it blocks exactly while no frame is present; whenever a frame is
present it reports availability; and in every case it returns the state
unchanged: a peek, never a dequeue. -/
theorem waitCapture_peek_semantics (s : CameraState) (t : Int) :
    (s.outputQueue = [] → ArducamWaitCaptureImage s 0 = (some .CaptureTimeout, s))
    ∧ (t < 0 → s.outputQueue = [] → s.doExit = false →
        (ArducamWaitCaptureImage s t).1 = none)
    ∧ (s.outputQueue ≠ [] → (ArducamWaitCaptureImage s t).1 = some .Success)
    ∧ (ArducamWaitCaptureImage s t).2 = s := by
  refine ⟨?_, ?_, ?_, waitCapture_snd s t⟩
  · intro h; simp [ArducamWaitCaptureImage, h]
  · intro ht h hde
    have : t ≠ 0 := by omega
    simp [ArducamWaitCaptureImage, h, hde, this]
  · intro h; simp [ArducamWaitCaptureImage, h]

/-- C4 witness: the scenario camera with a drained queue answers a
zero-timeout wait immediately, and a wait leaves the started camera
unchanged. -/
theorem waitCapture_peek_semantics_witness :
    (ArducamWaitCaptureImage scDrained 0).1 = some .CaptureTimeout
    ∧ (ArducamWaitCaptureImage scStart 5).2 = scStart :=
  ⟨by rw [(waitCapture_peek_semantics scDrained 0).1 (by decide)],
   (waitCapture_peek_semantics scStart 5).2.2.2⟩

/-- C5: registering a capture callback while one is registered fails with
`RegisterMultipleCallback` and leaves the previously registered callback
in place; after clearing the callback, a subsequent registration
succeeds. -/
theorem registerCaptureCallback_exclusive (s : CameraState) (c0 cb cb2 : Nat)
    (h : s.captureCallback = some c0) :
    ArducamRegisterCaptureCallback s cb = (.RegisterMultipleCallback, s)
    ∧ (ArducamRegisterCaptureCallback s cb).2.captureCallback = some c0
    ∧ (ArducamRegisterCaptureCallback (ArducamClearCaptureCallback s).2 cb2).1 = .Success := by
  refine ⟨?_, ?_, ?_⟩ <;>
    simp [ArducamRegisterCaptureCallback, ArducamClearCaptureCallback, h]

/-- C5 witness: a second registration on the scenario camera that already
holds callback 7. -/
theorem registerCaptureCallback_exclusive_witness :
    ArducamRegisterCaptureCallback scWithCallback 9 =
      (.RegisterMultipleCallback, scWithCallback) :=
  (registerCaptureCallback_exclusive scWithCallback 7 9 11 (by decide)).1

/-- C6: while the camera is `Started`, `setTransfer`, `setAutoTransfer`
and `setMemType` all fail with a state error and leave the whole state, in
particular the transfer configuration, unchanged; in the `Initialized` or
`Stopped` state all three succeed. -/
theorem transfer_config_immutable_while_started (s : CameraState)
    (tc bs : Int) (b : Bool) (m : ArducamMemType) :
    (s.lifecycle = .started →
      ArducamSetTransferConfig s tc bs = (.StateError, s)
      ∧ ArducamSetAutoTransferConfig s b = (.StateError, s)
      ∧ ArducamSetMemType s m = (.StateError, s))
    ∧ (s.lifecycle = .initialized ∨ s.lifecycle = .stopped →
      (ArducamSetTransferConfig s tc bs).1 = .Success
      ∧ (ArducamSetAutoTransferConfig s b).1 = .Success
      ∧ (ArducamSetMemType s m).1 = .Success) := by
  constructor
  · intro h
    refine ⟨?_, ?_, ?_⟩ <;>
      simp [ArducamSetTransferConfig, ArducamSetAutoTransferConfig, ArducamSetMemType, h]
  · intro h
    have hne : s.lifecycle ≠ .started := by
      rcases h with h | h <;> simp [h]
    refine ⟨?_, ?_, ?_⟩ <;>
      simp [ArducamSetTransferConfig, ArducamSetAutoTransferConfig, ArducamSetMemType, hne]

/-- C6 witness: setting the transfer configuration fails on the started
scenario camera and setting the memory type succeeds on the initialized
one. -/
theorem transfer_config_immutable_while_started_witness :
    ArducamSetTransferConfig scStart 16 65536 = (.StateError, scStart)
    ∧ (ArducamSetMemType scInit .RAM).1 = .Success :=
  ⟨((transfer_config_immutable_while_started scStart 16 65536 true .RAM).1 (by decide)).1,
   ((transfer_config_immutable_while_started scInit 16 65536 true .RAM).2
      (Or.inl (by decide))).2.2⟩

/-- C7 counterexample: the claim that every synchronous operation of the
API never throws is false as stated: the C++ wrapper's `DeviceList::at`,
documented in `ArducamCamera.hpp` to throw `std::out_of_range`, throws on
an empty device list indexed at 0 instead of reporting failure through a
return value. -/
theorem sync_api_throws_counterexample :
    runSyncOp SyncOp.deviceListAt exampleInput = .error .outOfRange := rfl

/-- C7 (amended): every synchronous operation of the modelled API other
than the C++ wrapper's `DeviceList::at` reports failure only through its
return code and never throws; capture and free calls return only their own
synchronous codes (success, capture timeout, or a buffer error — never a
transfer fault) and never touch the event channel; asynchronous device
faults are delivered exclusively through the event callback channel,
leaving both queues unchanged. -/
theorem sync_api_no_throw_amended (op : SyncOp) (i : OpInput)
    (h : op ≠ SyncOp.deviceListAt) :
    (∃ c, runSyncOp op i = .ok c)
    ∧ (∀ s t, (ArducamCaptureImage s t).1 = .Success
        ∨ (ArducamCaptureImage s t).1 = .CaptureTimeout)
    ∧ (∀ s f, (ArducamFreeImage s f).1 = .Success
        ∨ (ArducamFreeImage s f).1 = .FreeEmptyBuffer
        ∨ (ArducamFreeImage s f).1 = .FreeUnknowBuffer)
    ∧ (∀ s t, (ArducamCaptureImage s t).2.2.deliveredEvents = s.deliveredEvents)
    ∧ (∀ s f, (ArducamFreeImage s f).2.deliveredEvents = s.deliveredEvents)
    ∧ (∀ s e, (deviceFaultEvent s e).deliveredEvents = s.deliveredEvents ++ [e]
        ∧ (deviceFaultEvent s e).outputQueue = s.outputQueue
        ∧ (deviceFaultEvent s e).inputQueue = s.inputQueue) := by
  refine ⟨?_, ?_, ?_, ?_, ?_, ?_⟩
  · cases op <;> first
      | exact absurd rfl h
      | exact ⟨_, rfl⟩
  · intro s t
    cases hq : s.outputQueue <;> simp [ArducamCaptureImage, hq]
  · intro s f
    unfold ArducamFreeImage
    split_ifs <;> simp
  · intro s t
    cases hq : s.outputQueue <;> simp [ArducamCaptureImage, hq]
  · intro s f
    unfold ArducamFreeImage
    split_ifs <;> simp
  · intro s e
    exact ⟨rfl, rfl, rfl⟩

/-- C7 witness: the capture operation on the example input returns a code
normally. -/
theorem sync_api_no_throw_amended_witness :
    ∃ c, runSyncOp SyncOp.captureImage exampleInput = .ok c :=
  (sync_api_no_throw_amended SyncOp.captureImage exampleInput (by decide)).1

/-- C8: in the sequence open, init, start followed by the producer
completing three frames, the available count is 3; three successive
captures succeed, returning the frames in FIFO order with strictly
ascending sequence numbers 0, 1, 2 while the available count drains to 2,
1, 0; and a subsequent stop immediately unblocks any wait call still
pending on the drained camera. -/
theorem end_to_end_capture_drain :
    ((ArducamAvailableImageCount scThree).2 = 3
      ∧ scCap1.1 = .Success ∧ scCap2.1 = .Success ∧ scCap3.1 = .Success
      ∧ scCap1.2.1.map (fun f => f.seq) = some 0
      ∧ scCap2.2.1.map (fun f => f.seq) = some 1
      ∧ scCap3.2.1.map (fun f => f.seq) = some 2
      ∧ (ArducamAvailableImageCount scAfter1).2 = 2
      ∧ (ArducamAvailableImageCount scAfter2).2 = 1
      ∧ (ArducamAvailableImageCount scDrained).2 = 0)
    ∧ ∀ t : Int, (ArducamWaitCaptureImage scDrained t).1 = none →
        (ArducamWaitCaptureImage (ArducamStopCamera scDrained).2 t).1 ≠ none := by
  constructor
  · exact ⟨by decide, by decide, by decide, by decide, by decide,
      by decide, by decide, by decide, by decide, by decide⟩
  · intro t _
    unfold ArducamWaitCaptureImage
    rw [if_neg (by decide), if_pos (by decide)]
    simp

/-- C8 witness: a wait with negative timeout pending on the drained
scenario camera is unblocked by stop. -/
theorem end_to_end_capture_drain_witness :
    (ArducamWaitCaptureImage scDrained (-1)).1 = none
    ∧ (ArducamWaitCaptureImage (ArducamStopCamera scDrained).2 (-1)).1 ≠ none :=
  ⟨by decide, end_to_end_capture_drain.2 (-1) (by decide)⟩

/-- C9: closing a camera in the `Started` state succeeds by first stopping
it and then releasing all resources — a direct Started-to-Closed
transition — and afterwards the handle is invalid. -/
theorem close_stops_then_releases (s : CameraState) (h : s.lifecycle = .started) :
    (ArducamCloseCamera s).1 = .Success
    ∧ (ArducamCloseCamera s).2.lifecycle = .closed
    ∧ ArducamCloseCamera s = (.Success, releaseResources (ArducamStopCamera s).2)
    ∧ handleValid (ArducamCloseCamera s).2 = false := by
  refine ⟨?_, ?_, ?_, ?_⟩ <;>
    simp [ArducamCloseCamera, releaseResources, handleValid, h]

/-- C9 witness: closing the started scenario camera lands in the closed
state. -/
theorem close_stops_then_releases_witness :
    (ArducamCloseCamera scStart).2.lifecycle = .closed :=
  (close_stops_then_releases scStart (by decide)).2.1

/-- C10: `ArducamDefaultParam` resets every field of the open-parameter
struct to its documented default — null configuration file names, text
configuration, DMA memory type and null device — regardless of the
struct's prior contents. -/
theorem defaultParam_resets_all_fields (p : ArducamCameraOpenParam) :
    ArducamDefaultParam p =
      { config_file_name := none
        ext_config_file_name := none
        bin_config := false
        mem_type := .DMA
        device := none } := rfl
